import Mathlib

/-!
Shallow embedding of src/observer.js (the mobx-react observer binding).

The reactive lifecycle mixin of observer.js closes over two per-instance
variables (reaction, isRenderingPending), stores a flag on the instance
(__$mobxIsUnmounted) and swaps functions through the render slot
(this.render is baseRender, then initialRender, then reactiveRender;
only reactiveRender carries the $mobx reaction handle).  InstState
collects this per-instance state together with two observation counters:
forcedUpdates counts calls of React.Component.prototype.forceUpdate and
renderCount counts executions of the tracked render; events records
renderReporter emissions.  The global flags isUsingStaticRendering and
isDevtoolsEnabled are passed as explicit parameters.
-/

/-- Which function currently sits in the render slot of the instance:
baseRender (never replaced while static rendering is on), initialRender
(installed by componentWillMount), or reactiveRender (installed by the
first render; only this one carries the $mobx reaction handle). -/
inductive RenderSlot
  | base
  | initial
  | reactive
  deriving DecidableEq, Repr

/-- Per-instance state of the reactive lifecycle mixin of observer.js. -/
structure InstState where
  renderSlot : RenderSlot
  reactionCreated : Bool
  reactionDisposed : Bool
  isRenderingPending : Bool
  isUnmounted : Bool
  renderCount : Nat
  forcedUpdates : Nat
  events : List String
  deriving DecidableEq, Repr

/-- componentWillMount (observer.js lines 70-127): when static rendering is
on, return immediately; otherwise initialise the closure variables
(reaction = null, isRenderingPending = false) and install initialRender in
the render slot. -/
def componentWillMount (staticRendering : Bool) (s : InstState) : InstState :=
  if staticRendering then s
  else { s with renderSlot := RenderSlot.initial,
                reactionCreated := false,
                reactionDisposed := false,
                isRenderingPending := false }

/-- reactiveRender (observer.js lines 111-124): clear the pending flag, then
execute baseRender inside reaction.track.  The devtools timestamp writes do
not affect control flow and are omitted; renderCount records the execution
of the tracked render. -/
def reactiveRender (s : InstState) : InstState :=
  { s with isRenderingPending := false, renderCount := s.renderCount + 1 }

/-- initialRender (observer.js lines 83-109): create the reaction, attach it
as $mobx on reactiveRender, install reactiveRender in the render slot and
run it once. -/
def initialRender (s : InstState) : InstState :=
  reactiveRender { s with reactionCreated := true,
                          reactionDisposed := false,
                          renderSlot := RenderSlot.reactive }

/-- Reaction callback (observer.js lines 84-105), the invalidation handler.
fu is the outcome of React.Component.prototype.forceUpdate: none means it
returns normally, some e means it throws e.  If a render is already pending,
do nothing; otherwise set the pending flag and, unless the instance is
unmounted, force the update.  When forceUpdate throws, the finally block
disposes the reaction (hasError stays true) and the error propagates as the
second component of the result.  The optional componentWillReact hook is
absent on the modelled instance. -/
def invalidateWith (fu : Option Nat) (s : InstState) : InstState × Option Nat :=
  if s.isRenderingPending then (s, none)
  else
    let s1 := { s with isRenderingPending := true }
    if s1.isUnmounted then (s1, none)
    else
      match fu with
      | none => ({ s1 with forcedUpdates := s1.forcedUpdates + 1 }, none)
      | some e => ({ s1 with reactionDisposed := true }, some e)

/-- Invalidation on the normal path, where forceUpdate returns without
throwing. -/
def invalidate (s : InstState) : InstState :=
  (invalidateWith none s).1

/-- componentWillUnmount (observer.js lines 129-145): when static rendering
is on, return immediately; otherwise dispose the reaction if the render
slot carries a $mobx handle (only reactiveRender does), set
__$mobxIsUnmounted, and when devtools are enabled delete the registry
association and emit the destroy event. -/
def componentWillUnmount (staticRendering devtools : Bool) (s : InstState) : InstState :=
  if staticRendering then s
  else
    let s1 := if s.renderSlot = RenderSlot.reactive
              then { s with reactionDisposed := true } else s
    let s2 := { s1 with isUnmounted := true }
    if devtools then { s2 with events := s2.events ++ ["destroy"] } else s2

/-- JavaScript values as far as shouldComponentUpdate inspects them.  An obj
is a heap object with identity id; observable marks mobx.isObservable.
Numbers are modelled as integers (no NaN). -/
inductive JSValue
  | undef
  | jsNull
  | bool (b : Bool)
  | num (n : Int)
  | str (s : String)
  | obj (id : Nat) (observable : Bool)
  deriving DecidableEq, Repr

/-- JavaScript strict equality on the modelled values: value equality on
primitives, identity on objects. -/
def refEq (a b : JSValue) : Bool := decide (a = b)

/-- JavaScript truthiness of a value. -/
def truthy : JSValue → Bool
  | .undef => false
  | .jsNull => false
  | .bool b => b
  | .num n => n != 0
  | .str s => s != ""
  | .obj _ _ => true

/-- Whether typeof v is the string "object" (true for null and for heap
objects). -/
def isObjectType : JSValue → Bool
  | .jsNull => true
  | .obj _ _ => true
  | _ => false

/-- mobx.isObservable on the modelled values. -/
def isObservableVal : JSValue → Bool
  | .obj _ o => o
  | _ => false

/-- Property read props[k]: undefined when the key is absent.  A JavaScript
object holds each key at most once. -/
def getProp (props : List (String × JSValue)) (k : String) : JSValue :=
  match props.find? (fun kv => kv.1 == k) with
  | some kv => kv.2
  | none => JSValue.undef

/-- Prop-comparison loop of shouldComponentUpdate (observer.js lines
172-187).  The source iterates i from keys.length - 1 downwards with the
loop condition written as the comma expression of i >= 0 and the assignment
of keys[i] to key: the comma operator discards i >= 0, so the loop runs
while keys[i] is truthy and stops at i = -1 (keys[-1] is undefined) -- or
earlier, at an empty-string key, which is also falsy.  The list argument is
the key list of the current props in that traversal order (reversed). -/
def propsLoop (props nextProps : List (String × JSValue)) : List String → Bool
  | [] => false
  | k :: rest =>
    if k = "" then false
    else
      let newValue := getProp nextProps k
      if !(refEq newValue (getProp props k)) then true
      else if truthy newValue && isObjectType newValue && !(isObservableVal newValue) then true
      else propsLoop props nextProps rest

/-- shouldComponentUpdate (observer.js lines 159-189): update on any state
reference change, update when the prop key counts differ, otherwise run the
key loop.  The static-mode console warning does not affect the result.
JavaScript objects have no duplicate keys, so the length of
Object.keys(nextProps) is the entry count of nextProps. -/
def shouldComponentUpdate (state nextState : JSValue)
    (props nextProps : List (String × JSValue)) : Bool :=
  if !(refEq state nextState) then true
  else
    let keys := props.map Prod.fst
    if keys.length ≠ nextProps.length then true
    else propsLoop props nextProps keys.reverse

/-- True of a prop value that is a non-primitive object (a heap object, so
not null) and not observable. -/
def isNonObservableObject : JSValue → Bool
  | .obj _ o => !o
  | _ => false

/-- Spec-side definition, following the words of the Update Gate sentence:
skip iff the state reference is unchanged, the prop key counts are equal,
every prop value is reference-equal to the corresponding next value, and no
prop value is a non-observable non-primitive object.  Stated to be compared
with shouldComponentUpdate, the definition taken from the source. -/
def specGateSkip (state nextState : JSValue)
    (props nextProps : List (String × JSValue)) : Bool :=
  refEq state nextState &&
  props.length == nextProps.length &&
  props.all (fun kv => refEq (getProp nextProps kv.1) kv.2 && !(isNonObservableObject kv.2))

/-- Symbolic lifecycle hook values: a user-authored hook (by identity), a
reactiveMixin hook (by name), or the combined function that patch installs
over an existing hook. -/
inductive HookFn
  | user (id : Nat)
  | mixinHook (name : String)
  | combined (base mixinFunc : HookFn)
  deriving DecidableEq, Repr

/-- patch (observer.js lines 53-64) on one hook slot: install the mixin
hook directly when the target has no hook of that name, otherwise install
the combined function. -/
def patch (base : Option HookFn) (mixinFunc : HookFn) : HookFn :=
  match base with
  | none => mixinFunc
  | some b => HookFn.combined b mixinFunc

/-- Call semantics of a hook.  Given interpretations of user hooks and of
mixin hooks as state transformers taking the calling context and the
arguments, the combined function of observer.js lines 59-62 first applies
base to this and arguments, then applies mixinFunc to the same this and the
same arguments. -/
def runHook {α β σ : Type} (iU : Nat → α → β → σ → σ) (iM : String → α → β → σ → σ) :
    HookFn → α → β → σ → σ
  | .user i => iU i
  | .mixinHook n => iM n
  | .combined b m => fun ctx args st => runHook iU iM m ctx args (runHook iU iM b ctx args st)

/-- The five hook slots of the decoration target that observer touches
(observer.js lines 236-247). -/
structure TargetHooks where
  componentWillMount : Option HookFn
  componentWillUnmount : Option HookFn
  componentDidMount : Option HookFn
  componentDidUpdate : Option HookFn
  shouldComponentUpdate : Option HookFn
  deriving DecidableEq, Repr

/-- Hook installation performed by observer (observer.js lines 236-247):
patch the four lifecycle hooks, then assign the mixin shouldComponentUpdate
only when the target has none. -/
def applyObserverPatches (t : TargetHooks) : TargetHooks :=
  { componentWillMount := some (patch t.componentWillMount (HookFn.mixinHook "componentWillMount")),
    componentWillUnmount := some (patch t.componentWillUnmount (HookFn.mixinHook "componentWillUnmount")),
    componentDidMount := some (patch t.componentDidMount (HookFn.mixinHook "componentDidMount")),
    componentDidUpdate := some (patch t.componentDidUpdate (HookFn.mixinHook "componentDidUpdate")),
    shouldComponentUpdate :=
      if t.shouldComponentUpdate.isSome then t.shouldComponentUpdate
      else some (HookFn.mixinHook "shouldComponentUpdate") }

/-- Errors surfaced by observer: an Error thrown with a message, or a
TypeError raised by a property access on null or undefined. -/
inductive JsError
  | thrown (msg : String)
  | typeError (msg : String)
  deriving DecidableEq, Repr

/-- A function-style component and its static metadata (observer.js lines
218-229); run is the function itself, applied to props and context. -/
structure FnComp where
  displayName : Option String
  fname : String
  propTypes : Option Nat
  contextTypes : Option Nat
  defaultProps : Option Nat
  run : Nat → Nat → Nat

/-- A stateful component class as observer manipulates it: static metadata,
the injector marker, the prototype hook slots, the render behaviour (props
and context to output) and the isMobXReactObserver marker. -/
structure ClassComp where
  displayName : Option String
  propTypes : Option Nat
  contextTypes : Option Nat
  defaultProps : Option Nat
  isInjector : Bool
  hooks : TargetHooks
  render : Nat → Nat → Nat
  isMobXReactObserver : Bool

/-- JavaScript disjunction a || b for an optional string a, where undefined
and the empty string are falsy. -/
def jsStrOr : Option String → String → Option String
  | some s, b => if s = "" then some b else some s
  | none, b => some b

/-- React.createClass wrapper that observer builds for a function-style
component (observer.js lines 223-229): displayName is the disjunction of
the displayName and the name of the function, propTypes and contextTypes
are forwarded, getDefaultProps returns the defaultProps of the function,
and the render hook calls the function with this.props and this.context.
The created class has no lifecycle hooks of its own. -/
def wrapFn (f : FnComp) : ClassComp :=
  { displayName := jsStrOr f.displayName f.fname,
    propTypes := f.propTypes,
    contextTypes := f.contextTypes,
    defaultProps := f.defaultProps,
    isInjector := false,
    hooks := { componentWillMount := none, componentWillUnmount := none,
               componentDidMount := none, componentDidUpdate := none,
               shouldComponentUpdate := none },
    render := fun props ctx => f.run props ctx,
    isMobXReactObserver := false }

/-- Decoration of a stateful component (observer.js lines 236-249): patch
the prototype hook slots and set isMobXReactObserver. -/
def decorate (c : ClassComp) : ClassComp :=
  { c with hooks := applyObserverPatches c.hooks, isMobXReactObserver := true }

/-- Argument shapes that observer distinguishes: a string, an array of
store names, null or undefined, another falsy value (false, 0, NaN), a
function-style component without a prototype render, or a stateful
component class. -/
inductive ObsArg
  | jsString (s : String)
  | jsArray (storeCount : Nat)
  | nullish
  | falsyComp
  | fn (f : FnComp)
  | cls (c : ClassComp)

/-- Result of a single-argument observer call: the decorated component, or
the curried decorator awaiting a component (the store-injection path). -/
inductive ObsResult
  | component (c : ClassComp)
  | decorator (storeCount : Nat)

/-- observer (observer.js lines 195-249), single-argument invocation.  A
string throws; an array returns the curried decorator (the inject module is
an external collaborator); any other argument is the component class.  The
very next statement reads the isInjector property of the component class,
which raises a TypeError when the argument is null or undefined -- the
descriptive throw asking for a valid component sits below it, is therefore
unreachable for those inputs, and fires only for the other falsy targets.
A function without a prototype render is wrapped through React.createClass
and passed back through observer, which then decorates the wrapper: that
recursive call is inlined here as decorate applied to wrapFn. -/
def observer : ObsArg → Except JsError ObsResult
  | ObsArg.jsString _ =>
      Except.error (JsError.thrown "Store names should be provided as array")
  | ObsArg.jsArray n => Except.ok (ObsResult.decorator n)
  | ObsArg.nullish =>
      Except.error (JsError.typeError "Cannot read property isInjector of null or undefined")
  | ObsArg.falsyComp =>
      Except.error (JsError.thrown "Please pass a valid component to observer")
  | ObsArg.fn f => Except.ok (ObsResult.component (decorate (wrapFn f)))
  | ObsArg.cls c => Except.ok (ObsResult.component (decorate c))

/-- trackComponents (observer.js lines 38-43): throw a hard error when
WeakMap is unavailable, otherwise enable the devtools flag; the result is
the new flag value. -/
def trackComponents (weakMapAvailable isDevtoolsEnabled : Bool) : Except String Bool :=
  if !weakMapAvailable then
    Except.error "[mobx-react] tracking components is not supported in this browser."
  else if !isDevtoolsEnabled then Except.ok true
  else Except.ok isDevtoolsEnabled

/-- A mounted instance that has completed its first render and is idle:
render slot reactive, live reaction, no pending render, not unmounted. -/
def sIdle : InstState :=
  { renderSlot := RenderSlot.reactive, reactionCreated := true,
    reactionDisposed := false, isRenderingPending := false,
    isUnmounted := false, renderCount := 1, forcedUpdates := 0, events := [] }

/-- A mounted instance whose first render has not executed yet: the render
slot still holds initialRender, so no $mobx handle is attached. -/
def sFresh : InstState :=
  { renderSlot := RenderSlot.initial, reactionCreated := false,
    reactionDisposed := false, isRenderingPending := false,
    isUnmounted := false, renderCount := 0, forcedUpdates := 0, events := [] }

/-- A decoration target with user hooks on componentWillMount,
componentDidUpdate and shouldComponentUpdate. -/
def tSample : TargetHooks :=
  { componentWillMount := some (HookFn.user 1), componentWillUnmount := none,
    componentDidMount := none, componentDidUpdate := some (HookFn.user 2),
    shouldComponentUpdate := some (HookFn.user 3) }

/-- An invalidation arriving while a render is already pending leaves the
instance untouched (observer.js line 85: the handler body is guarded by the
pending flag). -/
theorem invalidate_pending_fixed (s : InstState) (h : s.isRenderingPending = true) :
    invalidate s = s := by
  simp [invalidate, invalidateWith, h]

/-- An invalidation on an idle, mounted instance sets the pending flag and
forces exactly one update. -/
theorem invalidate_idle (s : InstState) (hp : s.isRenderingPending = false)
    (hu : s.isUnmounted = false) :
    invalidate s = { s with isRenderingPending := true,
                            forcedUpdates := s.forcedUpdates + 1 } := by
  cases s
  simp_all [invalidate, invalidateWith]

/-- C1: on a mounted instance with no render pending, a sequence of N
dependency invalidations delivered before the pending re-render executes
collapses to the effect of the first one: the first invalidation sets the
pending flag and forces exactly one update, every later invalidation does
nothing, and the reactive render wrapper then clears the flag and executes
exactly one render. -/
theorem coalesced_rerender (s : InstState) (N : Nat) (hN : 1 ≤ N)
    (hp : s.isRenderingPending = false) (hu : s.isUnmounted = false) :
    invalidate^[N] s = invalidate s ∧
    (invalidate^[N] s).forcedUpdates = s.forcedUpdates + 1 ∧
    (invalidate^[N] s).isRenderingPending = true ∧
    (reactiveRender (invalidate^[N] s)).isRenderingPending = false ∧
    (reactiveRender (invalidate^[N] s)).renderCount = s.renderCount + 1 := by
  obtain ⟨m, rfl⟩ : ∃ m, N = m + 1 := ⟨N - 1, (Nat.succ_pred_eq_of_pos hN).symm⟩
  have h1 : invalidate s = { s with isRenderingPending := true,
                                    forcedUpdates := s.forcedUpdates + 1 } :=
    invalidate_idle s hp hu
  have hfix : invalidate (invalidate s) = invalidate s :=
    invalidate_pending_fixed _ (by rw [h1])
  have hiter : invalidate^[m + 1] s = invalidate s := by
    rw [Function.iterate_succ_apply]
    exact Function.iterate_fixed hfix m
  refine ⟨hiter, ?_, ?_, ?_, ?_⟩ <;> rw [hiter, h1] <;> simp [reactiveRender]

/-- Witness for C1 at a concrete idle instance and N = 3. -/
theorem coalesced_rerender_witness :
    invalidate^[3] sIdle = invalidate sIdle ∧
    (invalidate^[3] sIdle).forcedUpdates = sIdle.forcedUpdates + 1 ∧
    (invalidate^[3] sIdle).isRenderingPending = true ∧
    (reactiveRender (invalidate^[3] sIdle)).isRenderingPending = false ∧
    (reactiveRender (invalidate^[3] sIdle)).renderCount = sIdle.renderCount + 1 :=
  coalesced_rerender sIdle 3 (by decide) rfl rfl

/-- An invalidation on an unmounted instance forces no update, executes no
render and leaves the unmounted flag true. -/
theorem invalidate_unmounted_fields (s : InstState) (h : s.isUnmounted = true) :
    (invalidate s).forcedUpdates = s.forcedUpdates ∧
    (invalidate s).renderCount = s.renderCount ∧
    (invalidate s).isUnmounted = true := by
  cases hp : s.isRenderingPending <;> simp [invalidate, invalidateWith, hp, h]

/-- Iterated invalidations on an unmounted instance force no update,
execute no render and leave the unmounted flag true. -/
theorem invalidate_iter_unmounted (s : InstState) (h : s.isUnmounted = true) (N : Nat) :
    (invalidate^[N] s).forcedUpdates = s.forcedUpdates ∧
    (invalidate^[N] s).renderCount = s.renderCount ∧
    (invalidate^[N] s).isUnmounted = true := by
  induction N with
  | zero => simp [h]
  | succ n ih =>
    obtain ⟨hf, hr, hu⟩ := ih
    obtain ⟨hf2, hr2, hu2⟩ := invalidate_unmounted_fields _ hu
    rw [Function.iterate_succ_apply']
    exact ⟨hf2.trans hf, hr2.trans hr, hu2⟩

/-- C2: componentWillUnmount on a non-static instance whose render slot
carries the reaction disposes the reaction and sets the unmounted flag, and
afterwards any number of further invalidations forces no update, executes
no render, and never resets the unmounted flag. -/
theorem disposal_terminal (s : InstState) (d : Bool) (N : Nat)
    (hs : s.renderSlot = RenderSlot.reactive) :
    (componentWillUnmount false d s).reactionDisposed = true ∧
    (componentWillUnmount false d s).isUnmounted = true ∧
    (invalidate^[N] (componentWillUnmount false d s)).forcedUpdates
      = (componentWillUnmount false d s).forcedUpdates ∧
    (invalidate^[N] (componentWillUnmount false d s)).renderCount
      = (componentWillUnmount false d s).renderCount ∧
    (invalidate^[N] (componentWillUnmount false d s)).isUnmounted = true := by
  have h1 : (componentWillUnmount false d s).reactionDisposed = true := by
    cases d <;> simp [componentWillUnmount, hs]
  have h2 : (componentWillUnmount false d s).isUnmounted = true := by
    cases d <;> simp [componentWillUnmount, hs]
  obtain ⟨a, b, c⟩ := invalidate_iter_unmounted _ h2 N
  exact ⟨h1, h2, a, b, c⟩

/-- Witness for C2 at a concrete mounted instance, devtools off and N = 2. -/
theorem disposal_terminal_witness :
    (componentWillUnmount false false sIdle).reactionDisposed = true ∧
    (componentWillUnmount false false sIdle).isUnmounted = true ∧
    (invalidate^[2] (componentWillUnmount false false sIdle)).forcedUpdates
      = (componentWillUnmount false false sIdle).forcedUpdates ∧
    (invalidate^[2] (componentWillUnmount false false sIdle)).renderCount
      = (componentWillUnmount false false sIdle).renderCount ∧
    (invalidate^[2] (componentWillUnmount false false sIdle)).isUnmounted = true :=
  disposal_terminal sIdle false 2 rfl

/-- C4: when forcing the update throws inside the invalidation handler, the
reaction is disposed and the same error propagates unchanged; on the
non-throwing path the reaction is not disposed and no error propagates. -/
theorem forced_update_error_disposes (s : InstState) (e : Nat)
    (hp : s.isRenderingPending = false) (hu : s.isUnmounted = false) :
    (invalidateWith (some e) s).1.reactionDisposed = true ∧
    (invalidateWith (some e) s).2 = some e ∧
    (invalidateWith none s).1.reactionDisposed = s.reactionDisposed ∧
    (invalidateWith none s).2 = none := by
  simp [invalidateWith, hp, hu]

/-- Witness for C4 at a concrete idle instance with error value 7. -/
theorem forced_update_error_disposes_witness :
    (invalidateWith (some 7) sIdle).1.reactionDisposed = true ∧
    (invalidateWith (some 7) sIdle).2 = some 7 ∧
    (invalidateWith none sIdle).1.reactionDisposed = sIdle.reactionDisposed ∧
    (invalidateWith none sIdle).2 = none :=
  forced_update_error_disposes sIdle 7 rfl rfl

/-- C5: when static rendering is active, componentWillMount and
componentWillUnmount return immediately without mutating the instance: the
render slot, the reaction, the pending and unmounted flags and the emitted
events are all unchanged. -/
theorem static_mode_bypass (s : InstState) (d : Bool) :
    componentWillMount true s = s ∧ componentWillUnmount true d s = s := by
  constructor <;> simp [componentWillMount, componentWillUnmount]

/-- C10: componentWillUnmount on a non-static instance whose first render
has not executed (the render slot still holds initialRender, so no $mobx
handle is attached) skips disposal without an error and still sets the
unmounted flag. -/
theorem premature_unmount_safe (s : InstState) (d : Bool)
    (h : s.renderSlot = RenderSlot.initial) :
    (componentWillUnmount false d s).reactionDisposed = s.reactionDisposed ∧
    (componentWillUnmount false d s).isUnmounted = true := by
  cases d <;> simp [componentWillUnmount, h]

/-- Witness for C10 at a concrete freshly mounted instance with devtools on. -/
theorem premature_unmount_safe_witness :
    (componentWillUnmount false true sFresh).reactionDisposed = sFresh.reactionDisposed ∧
    (componentWillUnmount false true sFresh).isUnmounted = true :=
  premature_unmount_safe sFresh true rfl

/-- refEq decides equality of modelled values. -/
theorem refEq_true_iff (a b : JSValue) : refEq a b = true ↔ a = b := by
  simp [refEq]

/-- The object test of the prop loop (truthy, of object type, not
observable) agrees with isNonObservableObject. -/
theorem nonObs_check_eq (v : JSValue) :
    (truthy v && isObjectType v && !(isObservableVal v)) = isNonObservableObject v := by
  cases v <;> simp [truthy, isObjectType, isObservableVal, isNonObservableObject]

/-- Reading a cons cell: the head answers when its key matches. -/
theorem getProp_cons (p : String × JSValue) (ps : List (String × JSValue)) (k : String) :
    getProp (p :: ps) k = if p.1 = k then p.2 else getProp ps k := by
  by_cases h : p.1 = k
  · have hf : List.find? (fun kv => kv.1 == k) (p :: ps) = some p :=
      List.find?_cons_of_pos _ (by simpa using h)
    simp [getProp, hf, h]
  · have hf : List.find? (fun kv => kv.1 == k) (p :: ps)
        = List.find? (fun kv => kv.1 == k) ps :=
      List.find?_cons_of_neg _ (by simpa using h)
    simp [getProp, hf, h]

/-- On duplicate-free keys, reading the key of an entry returns the value of
that entry. -/
theorem getProp_eq_of_mem (props : List (String × JSValue)) (kv : String × JSValue)
    (hnp : (props.map Prod.fst).Nodup) (hm : kv ∈ props) :
    getProp props kv.1 = kv.2 := by
  induction props with
  | nil => cases hm
  | cons p ps ih =>
    rw [getProp_cons]
    rcases List.mem_cons.mp hm with rfl | hmem
    · rw [if_pos rfl]
    · rw [List.map_cons] at hnp
      have hnd := List.nodup_cons.mp hnp
      have hne : ¬ p.1 = kv.1 := by
        intro hEq
        apply hnd.1
        rw [hEq]
        exact List.mem_map.mpr ⟨kv, hmem, rfl⟩
      rw [if_neg hne]
      exact ih hnd.2 hmem

/-- Every key of the list is the key of some entry whose value the read
returns. -/
theorem getProp_mem_attains (props : List (String × JSValue)) (k : String)
    (h : k ∈ props.map Prod.fst) :
    ∃ kv, kv ∈ props ∧ kv.1 = k ∧ getProp props k = kv.2 := by
  induction props with
  | nil => simp at h
  | cons p ps ih =>
    by_cases hpk : p.1 = k
    · exact ⟨p, List.mem_cons_self p ps, hpk, by rw [getProp_cons, if_pos hpk]⟩
    · have hk2 : k ∈ ps.map Prod.fst := by
        rw [List.map_cons] at h
        rcases List.mem_cons.mp h with h1 | h1
        · exact absurd h1.symm hpk
        · exact h1
      obtain ⟨kv, hkv, hkv1, hkv2⟩ := ih hk2
      exact ⟨kv, List.mem_cons_of_mem p hkv, hkv1,
        by rw [getProp_cons, if_neg hpk]; exact hkv2⟩

/-- A value whose truthiness and object type force observability is not a
non-observable object. -/
theorem nonObs_of_imp (v : JSValue)
    (h : truthy v = true → isObjectType v = true → isObservableVal v = true) :
    isNonObservableObject v = false := by
  cases v <;> simp_all [truthy, isObjectType, isObservableVal, isNonObservableObject]

/-- When every key of the list is nonempty and the prop loop returns false,
each listed key passed both the reference check and the object check. -/
theorem propsLoop_false_forward (props nextProps : List (String × JSValue)) :
    ∀ L : List String, (∀ k ∈ L, k ≠ "") → propsLoop props nextProps L = false →
      ∀ k ∈ L, refEq (getProp nextProps k) (getProp props k) = true ∧
        isNonObservableObject (getProp nextProps k) = false := by
  intro L
  induction L with
  | nil => intro _ _ k hk; cases hk
  | cons a rest ih =>
    intro hne hloop k hk
    have ha : a ≠ "" := hne a (List.mem_cons_self a rest)
    simp only [propsLoop, if_neg ha] at hloop
    rcases Bool.eq_false_or_eq_true (refEq (getProp nextProps a) (getProp props a)) with h1 | h1
    · rw [h1] at hloop
      simp at hloop
      rcases List.mem_cons.mp hk with rfl | hk2
      · exact ⟨h1, nonObs_of_imp _ hloop.1⟩
      · exact ih (fun x hx => hne x (List.mem_cons_of_mem a hx)) hloop.2 k hk2
    · rw [h1] at hloop
      simp at hloop

/-- When each listed key passes both the reference check and the object
check, the prop loop returns false. -/
theorem propsLoop_false_backward (props nextProps : List (String × JSValue)) :
    ∀ L : List String,
      (∀ k ∈ L, refEq (getProp nextProps k) (getProp props k) = true ∧
        isNonObservableObject (getProp nextProps k) = false) →
      propsLoop props nextProps L = false := by
  intro L
  induction L with
  | nil => intro _; rfl
  | cons a rest ih =>
    intro h
    obtain ⟨h1, h2⟩ := h a (List.mem_cons_self a rest)
    by_cases ha : a = ""
    · simp only [propsLoop, if_pos ha]
    · have h2' : (truthy (getProp nextProps a) && isObjectType (getProp nextProps a)
          && !(isObservableVal (getProp nextProps a))) = false := by
        rw [nonObs_check_eq]; exact h2
      simp only [propsLoop, if_neg ha, h1, h2', Bool.not_true, Bool.false_eq_true,
        if_false, ite_false]
      exact ih (fun x hx => h x (List.mem_cons_of_mem a hx))

/-- C3 (amended): provided no prop key is the empty string and the key sets
are duplicate-free (as JavaScript objects guarantee), the Update Gate
returns skip exactly when the state reference is unchanged, the prop key
counts are equal, every prop value is reference-equal to the corresponding
next value, and no prop value is a non-observable non-primitive object. -/
theorem update_gate_iff (state nextState : JSValue)
    (props nextProps : List (String × JSValue))
    (hnp : (props.map Prod.fst).Nodup) (hnn : (nextProps.map Prod.fst).Nodup)
    (hk : ∀ k ∈ props.map Prod.fst, k ≠ "") :
    shouldComponentUpdate state nextState props nextProps = false ↔
      specGateSkip state nextState props nextProps = true := by
  have hdef : shouldComponentUpdate state nextState props nextProps =
      (if !(refEq state nextState) then true
       else if (props.map Prod.fst).length ≠ nextProps.length then true
       else propsLoop props nextProps (props.map Prod.fst).reverse) := rfl
  constructor
  · intro h
    rw [hdef] at h
    rcases Bool.eq_false_or_eq_true (refEq state nextState) with hst | hst
    · rw [hst] at h
      simp at h
      obtain ⟨hlenp, hloop⟩ := h
      have hforward := propsLoop_false_forward props nextProps
        ((props.map Prod.fst).reverse)
        (fun x hx => hk x (List.mem_reverse.mp hx)) hloop
      show (refEq state nextState && (props.length == nextProps.length) &&
        props.all (fun kv =>
          refEq (getProp nextProps kv.1) kv.2 && !(isNonObservableObject kv.2))) = true
      rw [hst, (by simp [hlenp] : (props.length == nextProps.length) = true)]
      simp only [Bool.true_and, List.all_eq_true]
      intro kv hkv
      have hin : kv.1 ∈ (props.map Prod.fst).reverse :=
        List.mem_reverse.mpr (List.mem_map.mpr ⟨kv, hkv, rfl⟩)
      obtain ⟨hre, hno⟩ := hforward kv.1 hin
      have hgp : getProp props kv.1 = kv.2 := getProp_eq_of_mem props kv hnp hkv
      rw [hgp] at hre
      have heq : getProp nextProps kv.1 = kv.2 := (refEq_true_iff _ _).mp hre
      rw [heq] at hno
      simp [hre, hno]
    · rw [hst] at h
      simp at h
  · intro h
    rw [specGateSkip] at h
    simp only [Bool.and_eq_true, beq_iff_eq, List.all_eq_true, Bool.not_eq_true'] at h
    obtain ⟨⟨hst, hlen⟩, hall⟩ := h
    rw [hdef, if_neg (by simp [hst]), if_neg (by simp [List.length_map, hlen])]
    apply propsLoop_false_backward
    intro k hkrev
    have hkin : k ∈ props.map Prod.fst := List.mem_reverse.mp hkrev
    obtain ⟨kv, hkv, hkv1, hkv2⟩ := getProp_mem_attains props k hkin
    obtain ⟨ha, hb⟩ := hall kv hkv
    subst hkv1
    refine ⟨by rw [hkv2]; exact ha, ?_⟩
    have heq : getProp nextProps kv.1 = kv.2 := (refEq_true_iff _ _).mp ha
    rw [heq]
    exact hb

/-- Witness for C3 (amended) at concrete equal props with an observable
object value: the gate skips. -/
theorem update_gate_iff_witness :
    shouldComponentUpdate JSValue.jsNull JSValue.jsNull
      [("a", JSValue.obj 1 true)] [("a", JSValue.obj 1 true)] = false :=
  (update_gate_iff JSValue.jsNull JSValue.jsNull
      [("a", JSValue.obj 1 true)] [("a", JSValue.obj 1 true)]
      (by decide) (by decide) (by decide)).mpr (by decide)

/-- C3 counterexample to the claim as stated: with the single prop key
being the empty string and its value changing from 1 to 2, the gate returns
skip (the backwards key scan exits at the falsy empty-string key before
comparing), while the claimed skip condition is violated, so the claimed
equivalence fails at this input. -/
theorem update_gate_empty_key_cex :
    ¬ (shouldComponentUpdate JSValue.jsNull JSValue.jsNull
        [("", JSValue.num 1)] [("", JSValue.num 2)] = false ↔
       specGateSkip JSValue.jsNull JSValue.jsNull
        [("", JSValue.num 1)] [("", JSValue.num 2)] = true) := by
  decide

/-- C6: patch installs the mixin hook directly when the target has no hook
of that name; when one exists, the installed combined hook invokes the
original hook first and then the mixin hook, passing both the same calling
context and the same arguments the combined hook received. -/
theorem patch_composes_hooks {α β σ : Type} (iU : Nat → α → β → σ → σ)
    (iM : String → α → β → σ → σ) (b m : HookFn) (ctx : α) (args : β) (st : σ) :
    patch none m = m ∧
    runHook iU iM (patch (some b) m) ctx args st =
      runHook iU iM m ctx args (runHook iU iM b ctx args st) :=
  ⟨rfl, rfl⟩

/-- C7: evaluation of the modelled usage errors.  A string argument throws
the store-names error; a null or undefined target raises a TypeError at the
isInjector property access (not the descriptive valid-component error,
which only the other falsy targets reach); trackComponents throws a hard
error without WeakMap and otherwise enables the flag. -/
theorem usage_errors_eval :
    observer (ObsArg.jsString "userStore")
      = Except.error (JsError.thrown "Store names should be provided as array") ∧
    observer ObsArg.nullish
      = Except.error (JsError.typeError "Cannot read property isInjector of null or undefined") ∧
    observer ObsArg.falsyComp
      = Except.error (JsError.thrown "Please pass a valid component to observer") ∧
    trackComponents false false
      = Except.error "[mobx-react] tracking components is not supported in this browser." ∧
    trackComponents true false = Except.ok true :=
  ⟨rfl, rfl, rfl, rfl, rfl⟩

/-- C8: observer on a bare render-only function decorates exactly the
synthesized wrapper a stateful shape would get, and the wrapper preserves
the diagnostic name (displayName or name), forwards propTypes and
contextTypes, supplies the defaultProps of the function, and renders by
invoking the original function with the current props and context. -/
theorem functional_wrapper (f : FnComp) :
    observer (ObsArg.fn f) = observer (ObsArg.cls (wrapFn f)) ∧
    (wrapFn f).displayName = jsStrOr f.displayName f.fname ∧
    (wrapFn f).propTypes = f.propTypes ∧
    (wrapFn f).contextTypes = f.contextTypes ∧
    (wrapFn f).defaultProps = f.defaultProps ∧
    (∀ props ctx, (wrapFn f).render props ctx = f.run props ctx) :=
  ⟨rfl, rfl, rfl, rfl, rfl, fun _ _ => rfl⟩

/-- C9: the hook installation of observer assigns the mixin
shouldComponentUpdate only when the target defines none and leaves a
user-defined one unchanged, while the four lifecycle hooks are always
patched: an existing hook becomes the combined hook and an absent one
receives the mixin hook directly. -/
theorem scu_not_clobbered (t : TargetHooks) :
    (∀ u, t.shouldComponentUpdate = some u →
        (applyObserverPatches t).shouldComponentUpdate = some u) ∧
    (t.shouldComponentUpdate = none →
        (applyObserverPatches t).shouldComponentUpdate
          = some (HookFn.mixinHook "shouldComponentUpdate")) ∧
    (∀ u, t.componentWillMount = some u →
        (applyObserverPatches t).componentWillMount
          = some (HookFn.combined u (HookFn.mixinHook "componentWillMount"))) ∧
    (∀ u, t.componentWillUnmount = some u →
        (applyObserverPatches t).componentWillUnmount
          = some (HookFn.combined u (HookFn.mixinHook "componentWillUnmount"))) ∧
    (∀ u, t.componentDidMount = some u →
        (applyObserverPatches t).componentDidMount
          = some (HookFn.combined u (HookFn.mixinHook "componentDidMount"))) ∧
    (∀ u, t.componentDidUpdate = some u →
        (applyObserverPatches t).componentDidUpdate
          = some (HookFn.combined u (HookFn.mixinHook "componentDidUpdate"))) ∧
    (t.componentWillMount = none →
        (applyObserverPatches t).componentWillMount
          = some (HookFn.mixinHook "componentWillMount")) := by
  refine ⟨?_, ?_, ?_, ?_, ?_, ?_, ?_⟩
  · intro u hu; simp [applyObserverPatches, hu]
  · intro hu; simp [applyObserverPatches, hu]
  · intro u hu; simp [applyObserverPatches, hu, patch]
  · intro u hu; simp [applyObserverPatches, hu, patch]
  · intro u hu; simp [applyObserverPatches, hu, patch]
  · intro u hu; simp [applyObserverPatches, hu, patch]
  · intro hu; simp [applyObserverPatches, hu, patch]

/-- Witness for C9 at a concrete target with a user shouldComponentUpdate,
a user componentWillMount and a user componentDidUpdate. -/
theorem scu_not_clobbered_witness :
    (applyObserverPatches tSample).shouldComponentUpdate = some (HookFn.user 3) ∧
    (applyObserverPatches tSample).componentWillMount
      = some (HookFn.combined (HookFn.user 1) (HookFn.mixinHook "componentWillMount")) ∧
    (applyObserverPatches tSample).componentDidUpdate
      = some (HookFn.combined (HookFn.user 2) (HookFn.mixinHook "componentDidUpdate")) :=
  ⟨(scu_not_clobbered tSample).1 (HookFn.user 3) rfl,
   (scu_not_clobbered tSample).2.2.1 (HookFn.user 1) rfl,
   (scu_not_clobbered tSample).2.2.2.2.2.1 (HookFn.user 2) rfl⟩
